import Mathlib

set_option maxRecDepth 100000
set_option maxHeartbeats 2000000

/-!
Shallow embedding of the LS-8 emulator (src/cpu.py) and proofs about it.

Modelling conventions:
* Python lists become Lean lists of natural numbers; Python list indexing
  (which allows negative indices, wrapping once from the end, and raises
  IndexError otherwise) is modelled by the function pyIndex below.
* Machine words are Nat.  Every value the emulator ever stores arises from
  parsing a string of binary digits or from copying such a value, so no
  negative numbers occur; int(value, 2) is modelled on strings of binary
  digits, with any other character mapped to a ValueError (Python also
  accepts signs and underscores, which no LS-8 program text uses).
* Fallible operations return Option or Except; an uncaught Python
  exception is a PyErr value.
* print is modelled by appending the printed text (with the trailing
  newline print adds) to an output trace; sys.exit by an exit code.
* The while-True loop of CPU.run is modelled with explicit fuel; running
  out of fuel yields the outOfFuel result, meaning the loop is still
  going.
* File I/O is glue outside the model: the loader receives the list of
  text lines of the program file.
-/

namespace LS8

/-- Python list indexing for a list of length len: a negative index i is
offset by len once; the result is the effective nonnegative index, or
none for an IndexError. -/
def pyIndex (len : Nat) (i : Int) : Option Nat :=
  if i < 0 then
    if i + (len : Int) < 0 then none
    else some (i + (len : Int)).toNat
  else if i < (len : Int) then some i.toNat else none

/-- Python read l[i] with Python index semantics. -/
def pyGet (l : List Nat) (i : Int) : Option Nat :=
  (pyIndex l.length i).bind fun j => l.get? j

/-- Python write l[i] = v with Python index semantics. -/
def pySet (l : List Nat) (i : Int) (v : Nat) : Option (List Nat) :=
  (pyIndex l.length i).map fun j => l.set j v

/-- Constant E of cpu.py: the equality-flag index, -1 (the last cell of
the flags list). -/
def E : Int := -1

/-- Constant G of cpu.py: the greater-than flag, left as None and never
used as an index. -/
def G : Option Int := none

/-- Constant L of cpu.py: the less-than flag, left as None and never
used as an index. -/
def L : Option Int := none

/-- Constant EXIT_SUCCESS of cpu.py. -/
def EXIT_SUCCESS : String := "SUCCESS\n"

def CMP : Nat := 0b10100111
def LDI : Nat := 0b10000010
def PRN : Nat := 0b01000111
def JMP : Nat := 0b01010100
def JEQ : Nat := 0b01010101
def JNE : Nat := 0b01010110
def HLT : Nat := 0b00000001

def AND : Nat := 0b10100001
def BOR : Nat := 0b10100101
def NOT : Nat := 0b01101110
def SHL : Nat := 0b10101011
def SHR : Nat := 0b10101100
def MOD : Nat := 0b10100110
def XOR : Nat := 0b10101001

/-- Uncaught Python exceptions of cpu.py: list IndexError, ValueError
from int(value, 2), and the Exception(NOT_FOUND, operation) raised by
CPU.run on an unknown opcode, carrying the offending byte. -/
inductive PyErr where
  | indexError : PyErr
  | valueError : PyErr
  | opNotFound : Nat → PyErr
deriving DecidableEq

/-- The machine state of the CPU class: 8 registers, 256 ram cells, the
8-cell flags list and the program counter. -/
structure CPU where
  register : List Nat
  ram : List Nat
  flags : List Nat
  counter : Nat
deriving DecidableEq

/-- CPU.__init__: all lists zeroed, counter 0. -/
def CPU.init : CPU :=
  { register := List.replicate 8 0
    ram := List.replicate 256 0
    flags := List.replicate 8 0
    counter := 0 }

/-- Result of one dispatched handler: the new state, the text printed by
the handler, and the exit code when the handler called sys.exit. -/
structure DOut where
  state : CPU
  out : List String
  exitCode : Option Nat
deriving DecidableEq

/-- CPU.ram_read: return self.ram[mar]. -/
def CPU.ram_read (self : CPU) (mar : Int) : Option Nat :=
  pyGet self.ram mar

/-- CPU.ram_write: self.ram[mar] = mdr. -/
def CPU.ram_write (self : CPU) (mar : Int) (mdr : Nat) : Option CPU :=
  (pySet self.ram mar mdr).map fun r => { self with ram := r }

/-- CPU._alu: only the CMP operation is implemented, and it writes only
self.flags[E]; the G and L constants are None and no other flag cell is
ever touched. -/
def CPU.alu (self : CPU) (operation : String) (register_a register_b : Nat) :
    Except PyErr CPU :=
  if operation = "CMP" then
    match pyGet self.register (register_a : Int),
          pyGet self.register (register_b : Int) with
    | some va, some vb =>
      match pySet self.flags E (if va = vb then 1 else 0) with
      | some fl => .ok { self with flags := fl }
      | none => .error .indexError
    | _, _ => .error .indexError
  else .ok self

/-- CPU._dispatch_prn: print(self.register[self.ram_read(counter+1)]);
counter += 2. -/
def CPU.dispatch_prn (self : CPU) : Except PyErr DOut :=
  match self.ram_read ((self.counter : Int) + 1) with
  | none => .error .indexError
  | some r =>
    match pyGet self.register (r : Int) with
    | none => .error .indexError
    | some v =>
      .ok ⟨{ self with counter := self.counter + 2 }, [toString v ++ "\n"], none⟩

/-- CPU._dispatch_jmp: counter = self.register[self.ram_read(counter+1)]. -/
def CPU.dispatch_jmp (self : CPU) : Except PyErr DOut :=
  match self.ram_read ((self.counter : Int) + 1) with
  | none => .error .indexError
  | some r =>
    match pyGet self.register (r : Int) with
    | none => .error .indexError
    | some v => .ok ⟨{ self with counter := v }, [], none⟩

/-- CPU._dispatch_jeq: if self.flags[E] == 1 jump to the register value,
else counter += 2. -/
def CPU.dispatch_jeq (self : CPU) : Except PyErr DOut :=
  match pyGet self.flags E with
  | none => .error .indexError
  | some f =>
    if f = 1 then
      match self.ram_read ((self.counter : Int) + 1) with
      | none => .error .indexError
      | some r =>
        match pyGet self.register (r : Int) with
        | none => .error .indexError
        | some v => .ok ⟨{ self with counter := v }, [], none⟩
    else .ok ⟨{ self with counter := self.counter + 2 }, [], none⟩

/-- CPU._dispatch_jne: if self.flags[E] == 0 jump to the register value,
else counter += 2. -/
def CPU.dispatch_jne (self : CPU) : Except PyErr DOut :=
  match pyGet self.flags E with
  | none => .error .indexError
  | some f =>
    if f = 0 then
      match self.ram_read ((self.counter : Int) + 1) with
      | none => .error .indexError
      | some r =>
        match pyGet self.register (r : Int) with
        | none => .error .indexError
        | some v => .ok ⟨{ self with counter := v }, [], none⟩
    else .ok ⟨{ self with counter := self.counter + 2 }, [], none⟩

/-- CPU._dispatch_ldi: self.register[ram_read(counter+1)] =
ram_read(counter+2); counter += 3.  The value is stored verbatim, with
no truncation. -/
def CPU.dispatch_ldi (self : CPU) : Except PyErr DOut :=
  match self.ram_read ((self.counter : Int) + 1) with
  | none => .error .indexError
  | some r =>
    match self.ram_read ((self.counter : Int) + 2) with
    | none => .error .indexError
    | some v =>
      match pySet self.register (r : Int) v with
      | none => .error .indexError
      | some regs =>
        .ok ⟨{ self with register := regs, counter := self.counter + 3 }, [], none⟩

/-- CPU._dispatch_hlt: counter = 0; print(EXIT_SUCCESS); sys.exit(0). -/
def CPU.dispatch_hlt (self : CPU) : Except PyErr DOut :=
  .ok ⟨{ self with counter := 0 }, [EXIT_SUCCESS ++ "\n"], some 0⟩

/-- CPU._dispatch_cmp: read both operand bytes, call the ALU with CMP,
counter += 3. -/
def CPU.dispatch_cmp (self : CPU) : Except PyErr DOut :=
  match self.ram_read ((self.counter : Int) + 1) with
  | none => .error .indexError
  | some register_a =>
    match self.ram_read ((self.counter : Int) + 2) with
    | none => .error .indexError
    | some register_b =>
      match self.alu "CMP" register_a register_b with
      | .error e => .error e
      | .ok s2 => .ok ⟨{ s2 with counter := s2.counter + 3 }, [], none⟩

/-- CPU._dispatch_and: the body is empty (stub), so the state is
returned unchanged, nothing is printed and the counter does not move. -/
def CPU.dispatch_and (self : CPU) : Except PyErr DOut := .ok ⟨self, [], none⟩

/-- CPU._dispatch_bor: empty stub. -/
def CPU.dispatch_bor (self : CPU) : Except PyErr DOut := .ok ⟨self, [], none⟩

/-- CPU._dispatch_not: empty stub. -/
def CPU.dispatch_not (self : CPU) : Except PyErr DOut := .ok ⟨self, [], none⟩

/-- CPU._dispatch_shl: empty stub. -/
def CPU.dispatch_shl (self : CPU) : Except PyErr DOut := .ok ⟨self, [], none⟩

/-- CPU._dispatch_shr: empty stub. -/
def CPU.dispatch_shr (self : CPU) : Except PyErr DOut := .ok ⟨self, [], none⟩

/-- CPU._dispatch_mod: empty stub; in particular it never divides and
never raises. -/
def CPU.dispatch_mod (self : CPU) : Except PyErr DOut := .ok ⟨self, [], none⟩

/-- CPU._dispatch_xor: empty stub. -/
def CPU.dispatch_xor (self : CPU) : Except PyErr DOut := .ok ⟨self, [], none⟩

/-- Membership test of the branch table self.dispatch built in
CPU.__init__ (the test operation in self.dispatch of CPU.run). -/
def isKnownOp (op : Nat) : Bool :=
  op = PRN || op = JMP || op = CMP || op = JEQ || op = JNE || op = LDI ||
  op = HLT || op = AND || op = BOR || op = NOT || op = SHL || op = SHR ||
  op = MOD || op = XOR

/-- Lookup-and-call on the branch table: self.dispatch[operation](). -/
def CPU.dispatchOp (self : CPU) (op : Nat) : Except PyErr DOut :=
  if op = PRN then self.dispatch_prn
  else if op = JMP then self.dispatch_jmp
  else if op = CMP then self.dispatch_cmp
  else if op = JEQ then self.dispatch_jeq
  else if op = JNE then self.dispatch_jne
  else if op = LDI then self.dispatch_ldi
  else if op = HLT then self.dispatch_hlt
  else if op = AND then self.dispatch_and
  else if op = BOR then self.dispatch_bor
  else if op = NOT then self.dispatch_not
  else if op = SHL then self.dispatch_shl
  else if op = SHR then self.dispatch_shr
  else if op = MOD then self.dispatch_mod
  else if op = XOR then self.dispatch_xor
  else .error (.opNotFound op)

/-- Result of running the fetch-dispatch loop: sys.exit with a code, an
uncaught exception, or still looping when the fuel runs out. -/
inductive RunResult where
  | exited : Nat → List String → RunResult
  | failed : PyErr → List String → RunResult
  | outOfFuel : CPU → List String → RunResult
deriving DecidableEq

/-- The while-True loop of CPU.run: fetch the byte at the counter, check
membership in the branch table, dispatch, and either exit, fail, or
continue with the printed output accumulated. -/
def CPU.runLoop : Nat → CPU → List String → RunResult
  | 0, self, out => .outOfFuel self out
  | fuel + 1, self, out =>
    match self.ram_read (self.counter : Int) with
    | none => .failed .indexError out
    | some operation =>
      if isKnownOp operation then
        match self.dispatchOp operation with
        | .error e => .failed e out
        | .ok d =>
          match d.exitCode with
          | some c => .exited c (out ++ d.out)
          | none => CPU.runLoop fuel d.state (out ++ d.out)
      else .failed (.opNotFound operation) out

/-- Python str.strip on a list of characters. -/
def pyStrip (l : List Char) : List Char :=
  ((l.dropWhile Char.isWhitespace).reverse.dropWhile Char.isWhitespace).reverse

/-- Python int(value, 2) on a string of binary digits; any other
character is a ValueError (none). -/
def parseBin (l : List Char) : Option Nat :=
  l.foldl
    (fun acc c =>
      acc.bind fun n =>
        if c = '0' then some (2 * n)
        else if c = '1' then some (2 * n + 1)
        else none)
    (some 0)

/-- The loop body of CPU.load: split each line at the first '#', strip
whitespace, skip empty remainders, parse the rest as base 2 and write it
at the next sequential address. -/
def CPU.loadFrom : List String → Nat → CPU → Except PyErr CPU
  | [], _, self => .ok self
  | line :: rest, address, self =>
    let value := pyStrip (line.data.takeWhile (fun c => c ≠ '#'))
    if value = [] then CPU.loadFrom rest address self
    else
      match parseBin value with
      | none => .error .valueError
      | some instruction =>
        match self.ram_write (address : Int) instruction with
        | none => .error .indexError
        | some s2 => CPU.loadFrom rest (address + 1) s2

/-- CPU.load on the text lines of the program file, starting at
address 0.  (Opening the file, and the FileNotFoundError branch, are I/O
glue outside the model.) -/
def CPU.load (self : CPU) (lines : List String) : Except PyErr CPU :=
  CPU.loadFrom lines 0 self

/-- CPU.run: load the program, then iterate the fetch-dispatch loop. -/
def CPU.run (self : CPU) (lines : List String) (fuel : Nat) : RunResult :=
  match self.load lines with
  | .error e => .failed e []
  | .ok s => CPU.runLoop fuel s []

/-- Outcome of invoking cpu.py as a script. -/
inductive MainResult where
  | moduleCrash : MainResult
  | usageExit : Nat → MainResult
  | ran : String → MainResult
deriving DecidableEq

/-- The module-level behaviour of cpu.py on an argument vector argv
(argv gets the script name at position 0, so zero command-line arguments
means a length of 1).  The module-level constant FILE_NAME (line 27)
evaluates sys.argv[1] inside an f-string when the module is imported,
before the arity check of the main block runs: with fewer than two
entries in argv that evaluation raises IndexError and the process dies
with a traceback (moduleCrash).  With exactly two entries the emulator
runs on argv[1]; otherwise the usage message is printed and
sys.exit(1) is called. -/
def mainEntry (argv : List String) : MainResult :=
  if argv.length < 2 then .moduleCrash
  else if argv.length = 2 then .ran (argv.getD 1 "")
  else .usageExit 1

/-! Concrete machine states used by the claim theorems and witnesses. -/

/-- A state holding 5 and 3 in registers 0 and 1, with a CMP instruction
at address 0 comparing register 0 against register 1. -/
def cmpDemo : CPU :=
  { register := [5, 3, 0, 0, 0, 0, 0, 0]
    ram := [167, 0, 1] ++ List.replicate 253 0
    flags := List.replicate 8 0
    counter := 0 }

/-- Claim C1 (code bug): comparing register 0 (holding 5) against
register 1 (holding 3) leaves every cell of the flags list at 0: the
handler writes only flags[E] (the equality bit, which is 0 here since
5 is not 3) and never touches a greater or less flag, although 5 > 3 and
the docstring of _dispatch_cmp promises L and G updates.  The counter
advances by 3 as usual. -/
theorem cmp_never_sets_greater_or_less :
    pyGet cmpDemo.register 0 = some 5 ∧
    pyGet cmpDemo.register 1 = some 3 ∧
    (cmpDemo.dispatch_cmp).map (fun d => d.state.flags) = .ok (List.replicate 8 0) ∧
    (cmpDemo.dispatch_cmp).map (fun d => d.state.counter) = .ok 3 :=
  ⟨rfl, rfl, rfl, rfl⟩

/-- Claim C2 (code bug): the MOD handler is an empty stub.  On every
state it returns the state unchanged — no remainder is stored, no
DivideByZero can ever be raised, nothing is printed, and even the
program counter does not move. -/
theorem mod_handler_is_noop :
    ∀ self : CPU, self.dispatch_mod = .ok ⟨self, [], none⟩ :=
  fun _ => rfl

/-- Claim C3 counterexample: a memory access at address -1 — outside
[0,255] — does not fail: the read succeeds and returns cell 255 of the
zeroed machine (Python wraparound indexing), and the write succeeds as
well, contradicting the claimed fatal OutOfRange error. -/
theorem ram_read_negative_succeeds :
    CPU.init.ram_read (-1) = some 0 ∧
    (CPU.init.ram_write (-1) 7).isSome = true :=
  ⟨rfl, rfl⟩

/-- Claim C4 (code bug): invoked with zero command-line arguments
(argv is just the script name) the process dies evaluating the
module-level FILE_NAME f-string — an IndexError before the usage check
ever runs — rather than reporting the usage error; with two or more
arguments the usage branch is reached and exits with status 1. -/
theorem zero_args_crashes_before_usage_check :
    mainEntry ["cpu.py"] = .moduleCrash ∧
    mainEntry ["cpu.py", "program.ls8", "extra"] = .usageExit 1 ∧
    MainResult.moduleCrash ≠ MainResult.usageExit 1 :=
  ⟨rfl, rfl, by decide⟩

/-- Claim C5 counterexample: the loader parses the nine-digit line
100000000 to the value 256 and stores it verbatim, and the LDI handler
then copies it verbatim into register 0 — no handler reduces modulo
256, so a register ends up holding 256, outside [0,255]. -/
theorem load_overwide_literal_breaks_register_range :
    ((CPU.init.load ["10000010", "00000000", "100000000"]).bind
        CPU.dispatch_ldi).map (fun d => d.state.register) =
      .ok [256, 0, 0, 0, 0, 0, 0, 0] ∧
    ¬ (256 : Nat) ≤ 255 :=
  ⟨rfl, by decide⟩

/-- Claim C6 counterexample: the six-byte demo program does print 8 and
exit with status 0, but the HLT handler also prints the SUCCESS banner
to standard output, so the output is not exactly the single line 8. -/
theorem demo_program_output_not_exactly_eight :
    CPU.init.run
        ["10000010", "00000000", "00001000",
         "01000111", "00000000", "00000001"] 10 =
      .exited 0 ["8\n", "SUCCESS\n\n"] ∧
    (["8\n", "SUCCESS\n\n"] : List String) ≠ ["8"] ∧
    (["8\n", "SUCCESS\n\n"] : List String) ≠ ["8\n"] :=
  ⟨rfl, by decide, by decide⟩

/-- Claim C6 (amended): the six-byte demo program prints the line 8,
then the SUCCESS banner printed by the halt handler, and exits with the
success status 0. -/
theorem demo_program_prints_eight_then_success :
    CPU.init.run
        ["10000010", "00000000", "00001000",
         "01000111", "00000000", "00000001"] 10 =
      .exited 0 ["8\n", "SUCCESS\n\n"] :=
  rfl

/-! Helper lemmas about Python list indexing. -/

/-- Resolving a Python index succeeds exactly for indices in [-len, len). -/
theorem pyIndex_isSome (len : Nat) (i : Int) :
    (pyIndex len i).isSome = true ↔ (-(len : Int) ≤ i ∧ i < (len : Int)) := by
  unfold pyIndex
  split_ifs with h1 h2 h3 <;> simp <;> omega

/-- A resolved Python index is a valid position. -/
theorem pyIndex_lt {len : Nat} {i : Int} {j : Nat}
    (h : pyIndex len i = some j) : j < len := by
  unfold pyIndex at h
  split_ifs at h
  all_goals cases h
  all_goals omega

/-- A Python read succeeds exactly when the index resolves. -/
theorem pyGet_isSome (l : List Nat) (i : Int) :
    (pyGet l i).isSome = true ↔ (pyIndex l.length i).isSome = true := by
  unfold pyGet
  cases hj : pyIndex l.length i with
  | none => simp
  | some j =>
    have hlt := pyIndex_lt hj
    simp [List.get?_eq_getElem?, List.getElem?_eq_getElem hlt]

/-- A negative index in range resolves like the index offset by len. -/
theorem pyIndex_wrap (len : Nat) (i : Int) (h1 : -(len : Int) ≤ i)
    (h2 : i < 0) : pyIndex len i = pyIndex len (i + (len : Int)) := by
  unfold pyIndex
  split_ifs <;> first | rfl | omega

/-- Claim C3 (amended): memory access is plain Python list indexing, not
a bounds check against [0,255]: an access at address a succeeds exactly
when a lies in [-ramsize, ramsize); a negative in-range address aliases
the cell at a + ramsize (wraparound), and only addresses outside
[-ramsize, ramsize) raise the (uncaught) IndexError.  A successful write
changes nothing but the resolved target cell. -/
theorem ram_access_wraparound_semantics (s : CPU) (a : Int) (v : Nat) :
    ((s.ram_read a).isSome = true ↔
        (-(s.ram.length : Int) ≤ a ∧ a < (s.ram.length : Int))) ∧
    ((s.ram_write a v).isSome = true ↔
        (-(s.ram.length : Int) ≤ a ∧ a < (s.ram.length : Int))) ∧
    (-(s.ram.length : Int) ≤ a → a < 0 →
        s.ram_read a = s.ram_read (a + (s.ram.length : Int))) ∧
    (∀ t, s.ram_write a v = some t →
        t.register = s.register ∧ t.flags = s.flags ∧ t.counter = s.counter ∧
        ∀ j : Nat, pyIndex s.ram.length a ≠ some j →
          t.ram.get? j = s.ram.get? j) := by
  refine ⟨?_, ?_, ?_, ?_⟩
  · unfold CPU.ram_read
    exact (pyGet_isSome s.ram a).trans (pyIndex_isSome s.ram.length a)
  · unfold CPU.ram_write pySet
    rw [← pyIndex_isSome s.ram.length a]
    cases pyIndex s.ram.length a <;> simp
  · intro h1 h2
    unfold CPU.ram_read pyGet
    rw [pyIndex_wrap s.ram.length a h1 h2]
  · intro t ht
    unfold CPU.ram_write pySet at ht
    cases hj : pyIndex s.ram.length a with
    | none => rw [hj] at ht; cases ht
    | some j =>
      rw [hj] at ht
      cases ht
      refine ⟨rfl, rfl, rfl, ?_⟩
      intro j2 hne
      have hjne : j ≠ j2 := fun hh => hne (by rw [hh])
      rw [List.get?_eq_getElem?, List.get?_eq_getElem?]
      exact List.getElem?_set_ne hjne

/-- Witness for C3: on the fresh machine the out-of-bounds address -5
reads the same cell as address -5 + 256 = 251. -/
theorem ram_access_wraparound_semantics_witness :
    CPU.init.ram_read (-5) =
      CPU.init.ram_read (-5 + (CPU.init.ram.length : Int)) :=
  (ram_access_wraparound_semantics CPU.init (-5) 0).2.2.1 (by decide) (by decide)

/-- Claim C7: on one and the same state, with the equality-flag cell
holding the bit f, exactly one of JEQ and JNE jumps: if f = 1, JEQ sets
the counter to the operand register's value and JNE falls through with
the counter advanced by exactly 2; if f = 0 the roles are swapped.
Neither prints, exits, nor changes any other state component. -/
theorem jeq_jne_exactly_one_branch (s : CPU) (f r v : Nat)
    (hf : pyGet s.flags E = some f)
    (hbit : f = 0 ∨ f = 1)
    (hr : s.ram_read ((s.counter : Int) + 1) = some r)
    (hv : pyGet s.register (r : Int) = some v) :
    (f = 1 ∧
      s.dispatch_jeq = .ok ⟨{ s with counter := v }, [], none⟩ ∧
      s.dispatch_jne = .ok ⟨{ s with counter := s.counter + 2 }, [], none⟩) ∨
    (f = 0 ∧
      s.dispatch_jeq = .ok ⟨{ s with counter := s.counter + 2 }, [], none⟩ ∧
      s.dispatch_jne = .ok ⟨{ s with counter := v }, [], none⟩) := by
  rcases hbit with rfl | rfl
  · refine Or.inr ⟨rfl, ?_, ?_⟩
    · unfold CPU.dispatch_jeq
      rw [hf]
      simp [hr, hv]
    · unfold CPU.dispatch_jne
      rw [hf]
      simp [hr, hv]
  · refine Or.inl ⟨rfl, ?_, ?_⟩
    · unfold CPU.dispatch_jeq
      rw [hf]
      simp [hr, hv]
    · unfold CPU.dispatch_jne
      rw [hf]
      simp [hr, hv]

/-- A state with 9 in register 0, the equality flag clear, and a JEQ
opcode with operand register 0 at address 0. -/
def jeqDemo : CPU :=
  { register := [9, 0, 0, 0, 0, 0, 0, 0]
    ram := 85 :: 0 :: List.replicate 254 0
    flags := List.replicate 8 0
    counter := 0 }

/-- Witness for C7 at a concrete state whose equality flag is 0: JEQ
falls through and JNE jumps to 9. -/
theorem jeq_jne_exactly_one_branch_witness :
    (0 = 1 ∧
      jeqDemo.dispatch_jeq = .ok ⟨{ jeqDemo with counter := 9 }, [], none⟩ ∧
      jeqDemo.dispatch_jne =
        .ok ⟨{ jeqDemo with counter := jeqDemo.counter + 2 }, [], none⟩) ∨
    (0 = 0 ∧
      jeqDemo.dispatch_jeq =
        .ok ⟨{ jeqDemo with counter := jeqDemo.counter + 2 }, [], none⟩ ∧
      jeqDemo.dispatch_jne = .ok ⟨{ jeqDemo with counter := 9 }, [], none⟩) :=
  jeq_jne_exactly_one_branch jeqDemo 0 0 9 rfl (Or.inl rfl) rfl rfl

/-- Claim C8: when the operand byte reads register index r and that
register holds v, JMP rebuilds the state with only the counter replaced
by v: registers, flags and memory are untouched, nothing is printed, and
there is no additional advance of the counter. -/
theorem jmp_sets_counter_only (s : CPU) (r v : Nat)
    (hr : s.ram_read ((s.counter : Int) + 1) = some r)
    (hv : pyGet s.register (r : Int) = some v) :
    s.dispatch_jmp = .ok ⟨{ s with counter := v }, [], none⟩ := by
  unfold CPU.dispatch_jmp
  rw [hr]
  simp [hv]

/-- A state with 9 in register 0 and a JMP opcode with operand register
0 at address 0. -/
def jmpDemo : CPU :=
  { register := [9, 0, 0, 0, 0, 0, 0, 0]
    ram := 84 :: 0 :: List.replicate 254 0
    flags := List.replicate 8 0
    counter := 0 }

/-- Witness for C8: the concrete jump sets the counter to 9. -/
theorem jmp_sets_counter_only_witness :
    jmpDemo.dispatch_jmp = .ok ⟨{ jmpDemo with counter := 9 }, [], none⟩ :=
  jmp_sets_counter_only jmpDemo 0 9 rfl rfl

/-- Claim C9: when the fetched byte is not in the branch table, the run
loop raises the operation-unknown exception carrying that byte, whatever
fuel remains — execution stops at once, with no retry and no further
output. -/
theorem unknown_opcode_fatal (s : CPU) (op : Nat)
    (hop : s.ram_read (s.counter : Int) = some op)
    (hunk : isKnownOp op = false) :
    ∀ fuel out, CPU.runLoop (fuel + 1) s out = .failed (.opNotFound op) out := by
  intro fuel out
  unfold CPU.runLoop
  rw [hop]
  simp [hunk]

/-- A fresh machine whose first ram byte is the unknown opcode 2. -/
def unknownDemo : CPU :=
  { register := List.replicate 8 0
    ram := 2 :: List.replicate 255 0
    flags := List.replicate 8 0
    counter := 0 }

/-- Witness for C9: the unknown byte 2 at address 0 fails the run at
once with the byte reported. -/
theorem unknown_opcode_fatal_witness :
    CPU.runLoop (0 + 1) unknownDemo [] = .failed (.opNotFound 2) [] :=
  unknown_opcode_fatal unknownDemo 2 rfl rfl 0 []

/-- Claim C10: each stretch handler (AND, BOR, NOT, SHL, SHR, MOD, XOR)
returns the machine state unchanged — registers, flags, memory and in
particular the counter — so once the loop fetches such an opcode it
refetches the same instruction on every cycle: for every amount of fuel
the loop is still running (it never exits through HLT and never fails). -/
theorem stretch_opcodes_loop_forever (s : CPU) (op : Nat)
    (hop : s.ram_read (s.counter : Int) = some op)
    (hstr : op = AND ∨ op = BOR ∨ op = NOT ∨ op = SHL ∨ op = SHR ∨
      op = MOD ∨ op = XOR) :
    s.dispatchOp op = .ok ⟨s, [], none⟩ ∧
    ∀ fuel out, CPU.runLoop fuel s out = .outOfFuel s out := by
  have hid : s.dispatchOp op = .ok ⟨s, [], none⟩ := by
    rcases hstr with rfl | rfl | rfl | rfl | rfl | rfl | rfl <;> rfl
  have hkn : isKnownOp op = true := by
    rcases hstr with rfl | rfl | rfl | rfl | rfl | rfl | rfl <;> rfl
  refine ⟨hid, ?_⟩
  intro fuel
  induction fuel with
  | zero => intro out; rfl
  | succ n ih =>
    intro out
    unfold CPU.runLoop
    rw [hop]
    simp only [hkn, if_true, hid]
    rw [List.append_nil]
    exact ih out

/-- A fresh machine whose first ram byte is the stretch opcode AND. -/
def stretchDemo : CPU :=
  { register := List.replicate 8 0
    ram := 161 :: List.replicate 255 0
    flags := List.replicate 8 0
    counter := 0 }

/-- Witness for C10: on the AND opcode the handler is the identity and
five cycles of fuel are consumed with no state change and no halt. -/
theorem stretch_opcodes_loop_forever_witness :
    stretchDemo.dispatchOp 161 = .ok ⟨stretchDemo, [], none⟩ ∧
    CPU.runLoop 5 stretchDemo [] = .outOfFuel stretchDemo [] := by
  have h := stretch_opcodes_loop_forever stretchDemo 161 rfl (Or.inl rfl)
  exact ⟨h.1, h.2 5 []⟩

/-- A value obtained by a Python read is a member of the list. -/
theorem pyGet_mem {l : List Nat} {i : Int} {v : Nat}
    (h : pyGet l i = some v) : v ∈ l := by
  unfold pyGet at h
  cases hj : pyIndex l.length i with
  | none => rw [hj] at h; cases h
  | some j => rw [hj] at h; exact List.get?_mem h

/-- A successful Python write is List.set at the resolved index. -/
theorem pySet_shape {l : List Nat} {i : Int} {v : Nat} {l2 : List Nat}
    (h : pySet l i v = some l2) : ∃ j, l2 = l.set j v := by
  unfold pySet at h
  cases hj : pyIndex l.length i with
  | none => rw [hj] at h; cases h
  | some j => rw [hj] at h; cases h; exact ⟨j, rfl⟩

/-- ram_write leaves registers, flags and the counter unchanged. -/
theorem ram_write_frame {s t : CPU} {mar : Int} {mdr : Nat}
    (h : s.ram_write mar mdr = some t) :
    t.register = s.register ∧ t.flags = s.flags ∧ t.counter = s.counter := by
  unfold CPU.ram_write at h
  cases hm : pySet s.ram mar mdr with
  | none => rw [hm] at h; cases h
  | some r => rw [hm] at h; cases h; exact ⟨rfl, rfl, rfl⟩

/-- The PRN handler never touches the register file or ram. -/
theorem frame_of_prn {s : CPU} {d : DOut} (h : s.dispatch_prn = .ok d) :
    d.state.register = s.register ∧ d.state.ram = s.ram := by
  unfold CPU.dispatch_prn at h
  repeat' split at h
  all_goals cases h
  all_goals exact ⟨rfl, rfl⟩

/-- The JMP handler never touches the register file or ram. -/
theorem frame_of_jmp {s : CPU} {d : DOut} (h : s.dispatch_jmp = .ok d) :
    d.state.register = s.register ∧ d.state.ram = s.ram := by
  unfold CPU.dispatch_jmp at h
  repeat' split at h
  all_goals cases h
  all_goals exact ⟨rfl, rfl⟩

/-- The JEQ handler never touches the register file or ram. -/
theorem frame_of_jeq {s : CPU} {d : DOut} (h : s.dispatch_jeq = .ok d) :
    d.state.register = s.register ∧ d.state.ram = s.ram := by
  unfold CPU.dispatch_jeq at h
  repeat' split at h
  all_goals cases h
  all_goals exact ⟨rfl, rfl⟩

/-- The JNE handler never touches the register file or ram. -/
theorem frame_of_jne {s : CPU} {d : DOut} (h : s.dispatch_jne = .ok d) :
    d.state.register = s.register ∧ d.state.ram = s.ram := by
  unfold CPU.dispatch_jne at h
  repeat' split at h
  all_goals cases h
  all_goals exact ⟨rfl, rfl⟩

/-- The ALU never touches the register file or ram (it writes flags
only). -/
theorem frame_of_alu {s s2 : CPU} {opn : String} {a b : Nat}
    (h : s.alu opn a b = .ok s2) :
    s2.register = s.register ∧ s2.ram = s.ram := by
  unfold CPU.alu at h
  repeat' split at h
  all_goals cases h
  all_goals exact ⟨rfl, rfl⟩

/-- The CMP handler never touches the register file or ram. -/
theorem frame_of_cmp {s : CPU} {d : DOut} (h : s.dispatch_cmp = .ok d) :
    d.state.register = s.register ∧ d.state.ram = s.ram := by
  unfold CPU.dispatch_cmp at h
  split at h
  · cases h
  split at h
  · cases h
  split at h
  · cases h
  · rename_i s2 heq
    cases h
    have hfr := frame_of_alu heq
    exact ⟨hfr.1, hfr.2⟩

/-- The LDI handler leaves ram unchanged and only moves a value already
present in a register or in ram into the register file — verbatim, with
no truncation. -/
theorem frame_of_ldi {s : CPU} {d : DOut} (h : s.dispatch_ldi = .ok d) :
    d.state.ram = s.ram ∧
    ∀ x ∈ d.state.register, x ∈ s.register ∨ x ∈ s.ram := by
  unfold CPU.dispatch_ldi at h
  split at h
  · cases h
  split at h
  · cases h
  rename_i r hr v hv
  split at h
  · cases h
  · rename_i regs hregs
    cases h
    refine ⟨rfl, ?_⟩
    intro x hx
    obtain ⟨j, rfl⟩ := pySet_shape hregs
    rcases List.mem_or_eq_of_mem_set hx with hmem | rfl
    · exact Or.inl hmem
    · exact Or.inr (pyGet_mem hv)

/-- The loader writes only ram: the register file it returns is the one
it was given. -/
theorem loadFrom_register (lines : List String) :
    ∀ (address : Nat) (s t : CPU),
      CPU.loadFrom lines address s = .ok t → t.register = s.register := by
  induction lines with
  | nil =>
    intro address s t h
    cases h
    rfl
  | cons line rest ih =>
    intro address s t h
    unfold CPU.loadFrom at h
    simp only [] at h
    split at h
    · exact ih address s t h
    · split at h
      · cases h
      · rename_i instruction hparse
        split at h
        · cases h
        · rename_i s2 hw
          rw [ih (address + 1) s2 t h, (ram_write_frame hw).1]

/-- Claim C5 (amended): no handler truncates anything modulo 256 —
values move verbatim — but registers do stay in [0,255] as long as ram
does: a dispatch step from a state whose ram and registers hold byte
values yields byte-valued registers again and never writes ram, and the
loader never touches the register file.  (A loaded ram value above 255,
possible with a literal of more than eight binary digits, is propagated
into a register unchanged.) -/
theorem registers_stay_bytes_without_truncation :
    (∀ (s : CPU) (op : Nat) (d : DOut),
        (∀ x ∈ s.ram, x ≤ 255) → (∀ x ∈ s.register, x ≤ 255) →
        s.dispatchOp op = .ok d →
        (∀ x ∈ d.state.register, x ≤ 255) ∧ d.state.ram = s.ram) ∧
    (∀ (lines : List String) (s t : CPU), s.load lines = .ok t →
        t.register = s.register) := by
  constructor
  · intro s op d hram hreg hd
    unfold CPU.dispatchOp at hd
    by_cases h1 : op = PRN
    · rw [if_pos h1] at hd
      obtain ⟨e1, e2⟩ := frame_of_prn hd
      rw [e1, e2]; exact ⟨hreg, rfl⟩
    rw [if_neg h1] at hd
    by_cases h2 : op = JMP
    · rw [if_pos h2] at hd
      obtain ⟨e1, e2⟩ := frame_of_jmp hd
      rw [e1, e2]; exact ⟨hreg, rfl⟩
    rw [if_neg h2] at hd
    by_cases h3 : op = CMP
    · rw [if_pos h3] at hd
      obtain ⟨e1, e2⟩ := frame_of_cmp hd
      rw [e1, e2]; exact ⟨hreg, rfl⟩
    rw [if_neg h3] at hd
    by_cases h4 : op = JEQ
    · rw [if_pos h4] at hd
      obtain ⟨e1, e2⟩ := frame_of_jeq hd
      rw [e1, e2]; exact ⟨hreg, rfl⟩
    rw [if_neg h4] at hd
    by_cases h5 : op = JNE
    · rw [if_pos h5] at hd
      obtain ⟨e1, e2⟩ := frame_of_jne hd
      rw [e1, e2]; exact ⟨hreg, rfl⟩
    rw [if_neg h5] at hd
    by_cases h6 : op = LDI
    · rw [if_pos h6] at hd
      obtain ⟨e1, e2⟩ := frame_of_ldi hd
      refine ⟨?_, e1⟩
      intro x hx
      rcases e2 x hx with hx2 | hx2
      · exact hreg x hx2
      · exact hram x hx2
    rw [if_neg h6] at hd
    by_cases h7 : op = HLT
    · rw [if_pos h7] at hd
      cases hd; exact ⟨hreg, rfl⟩
    rw [if_neg h7] at hd
    by_cases h8 : op = AND
    · rw [if_pos h8] at hd
      cases hd; exact ⟨hreg, rfl⟩
    rw [if_neg h8] at hd
    by_cases h9 : op = BOR
    · rw [if_pos h9] at hd
      cases hd; exact ⟨hreg, rfl⟩
    rw [if_neg h9] at hd
    by_cases h10 : op = NOT
    · rw [if_pos h10] at hd
      cases hd; exact ⟨hreg, rfl⟩
    rw [if_neg h10] at hd
    by_cases h11 : op = SHL
    · rw [if_pos h11] at hd
      cases hd; exact ⟨hreg, rfl⟩
    rw [if_neg h11] at hd
    by_cases h12 : op = SHR
    · rw [if_pos h12] at hd
      cases hd; exact ⟨hreg, rfl⟩
    rw [if_neg h12] at hd
    by_cases h13 : op = MOD
    · rw [if_pos h13] at hd
      cases hd; exact ⟨hreg, rfl⟩
    rw [if_neg h13] at hd
    by_cases h14 : op = XOR
    · rw [if_pos h14] at hd
      cases hd; exact ⟨hreg, rfl⟩
    rw [if_neg h14] at hd
    cases hd
  · intro lines s t h
    unfold CPU.load at h
    exact loadFrom_register lines 0 s t h

/-- A state holding the program bytes of SET-REGISTER r0 = 8 in ram. -/
def ldiDemo : CPU :=
  { register := List.replicate 8 0
    ram := [130, 0, 8] ++ List.replicate 253 0
    flags := List.replicate 8 0
    counter := 0 }

/-- The state after executing the LDI of ldiDemo. -/
def ldiDemoAfter : CPU :=
  { ldiDemo with register := [8, 0, 0, 0, 0, 0, 0, 0], counter := 3 }

/-- Witness for C5: executing the LDI at address 0 of ldiDemo keeps all
registers in [0,255] and ram untouched, and loading the empty program
leaves the register file of the fresh machine unchanged. -/
theorem registers_stay_bytes_without_truncation_witness :
    ((∀ x ∈ ldiDemoAfter.register, x ≤ 255) ∧
      ldiDemoAfter.ram = ldiDemo.ram) ∧
    CPU.init.register = CPU.init.register :=
  ⟨registers_stay_bytes_without_truncation.1 ldiDemo 130
      ⟨ldiDemoAfter, [], none⟩ (by decide) (by decide) rfl,
    registers_stay_bytes_without_truncation.2 [] CPU.init CPU.init rfl⟩

end LS8
